import Mathlib

/-!
Verification of the preprocessing core of the Distributed-ML repository
(src/preprocess/segment_lung.py, src/preprocess/normalize_resample.py,
src/preprocess/run.py) against its natural-language specification.

The Python code is shallowly embedded: numpy arrays become flat lists of
rationals together with an explicit shape, Python dictionaries become
association lists over an inductive type of Python values, IEEE-754
float32/float64 rounding is modelled as round-to-nearest-even on rationals,
and the on-disk cache becomes an explicit state record threaded through the
cached pipeline.  External scipy routines (connected-component labelling,
morphology, Gaussian filtering, spline zoom) are parameters of the
embedding: the theorems hold for every implementation of those routines.
-/

namespace DistML

/-! ## IEEE-754 rounding model

Python floats are IEEE binary64, numpy float32 arrays are IEEE binary32.
We model a finite float of precision `p` as a rational fixed by
round-to-nearest-even at `p` significand bits.  Exponent limits
(overflow / subnormals) are not modelled; every concrete value used in the
development lies well inside the normal range of both formats. -/

/-- Fuel-driven floor of the base-2 logarithm of a natural number. -/
def log2fuel : Nat → Nat → Nat
  | 0, _ => 0
  | f + 1, n => if n ≤ 1 then 0 else 1 + log2fuel f (n / 2)

/-- Floor of the base-2 logarithm (0 at 0). -/
def natLog2 (n : Nat) : Nat := log2fuel n n

/-- Fuel-driven ceiling of the base-2 logarithm of a natural number. -/
def clog2fuel : Nat → Nat → Nat
  | 0, _ => 0
  | f + 1, n => if n ≤ 1 then 0 else 1 + clog2fuel f ((n + 1) / 2)

/-- Ceiling of the base-2 logarithm (0 at 0 and 1). -/
def natClog2 (n : Nat) : Nat := clog2fuel n n

/-- Binary exponent of the positive fraction `a / b` (for `0 < a`, `0 < b`):
the unique `e` with `2 ^ e ≤ a / b < 2 ^ (e + 1)`. -/
def ratExp (a b : Nat) : ℤ :=
  if b ≤ a then (natLog2 (a / b) : ℤ)
  else -(natClog2 ((b + a - 1) / a) : ℤ)

/-- Round the fraction `n / d` (for `0 < d`) to the nearest integer,
ties to even. -/
def rneFrac (n d : ℤ) : ℤ :=
  let f := Int.fdiv n d
  let r := n - f * d
  if 2 * r < d then f
  else if d < 2 * r then f + 1
  else if 2 ∣ f then f else f + 1

/-- Round the fraction `n / d` to `p` significand bits,
round-to-nearest-even (0 when `n = 0` or `d = 0`). -/
def roundPrecFrac (p : Nat) (n d : ℤ) : ℚ :=
  if n = 0 ∨ d = 0 then 0
  else
    let s : ℤ := if (n < 0 ∧ d < 0) ∨ (0 < n ∧ 0 < d) then 1 else -1
    let a := n.natAbs
    let b := d.natAbs
    let k : ℤ := (p : ℤ) - 1 - ratExp a b
    let sn : ℤ := if 0 ≤ k then (a : ℤ) * 2 ^ k.toNat else (a : ℤ)
    let sd : ℤ := if 0 ≤ k then (b : ℤ) else (b : ℤ) * 2 ^ (-k).toNat
    let m := rneFrac sn sd
    if 0 ≤ k then mkRat (s * m) (2 ^ k.toNat) else mkRat (s * m * 2 ^ (-k).toNat) 1

/-- IEEE binary32 rounding (numpy float32). -/
def f32 (q : ℚ) : ℚ := roundPrecFrac 24 q.num q.den

/-- IEEE binary64 rounding (Python float / numpy float64). -/
def f64 (q : ℚ) : ℚ := roundPrecFrac 53 q.num q.den

/-- IEEE binary64 division `a / b`: the correctly rounded exact quotient. -/
def f64div (a b : ℚ) : ℚ := roundPrecFrac 53 (a.num * (b.den : ℤ)) ((a.den : ℤ) * b.num)

/-- Exact rational value of an integer literal (used for HU bounds). -/
def intQ (n : ℤ) : ℚ := mkRat n 1

/-! ## Python values and dictionaries

Metadata dictionaries have string keys and JSON-serializable values
(the data model of the spec).  Python `dict` preserves insertion order;
assigning to an existing key overwrites it in place, otherwise the pair is
appended.  We model a dictionary as an association list with exactly those
update semantics. -/

inductive PyVal where
  | none : PyVal
  | bool : Bool → PyVal
  | int : ℤ → PyVal
  | float : ℚ → PyVal
  | str : String → PyVal
  | list : List PyVal → PyVal
  | tuple : List PyVal → PyVal
  | dict : List (String × PyVal) → PyVal

/-- Dictionary lookup (first binding of the key wins). -/
def lookupKey {α : Type} : List (String × α) → String → Option α
  | [], _ => Option.none
  | (k', v') :: rest, k => if k' = k then some v' else lookupKey rest k

/-- Python dictionary item assignment: overwrite in place, else append. -/
def setKey {α : Type} : List (String × α) → String → α → List (String × α)
  | [], k, v => [(k, v)]
  | (k', v') :: rest, k, v =>
      if k' = k then (k, v) :: rest else (k', v') :: setKey rest k v

theorem lookupKey_setKey_self {α : Type} (l : List (String × α)) (k : String) (v : α) :
    lookupKey (setKey l k v) k = some v := by
  induction l with
  | nil => simp [setKey, lookupKey]
  | cons hd tl ih =>
      obtain ⟨k', v'⟩ := hd
      by_cases h : k' = k
      · simp [setKey, lookupKey, h]
      · simp [setKey, lookupKey, h, ih]

theorem lookupKey_setKey_ne {α : Type} (l : List (String × α)) (k k' : String) (v : α)
    (h : k' ≠ k) : lookupKey (setKey l k v) k' = lookupKey l k' := by
  induction l with
  | nil => simp [setKey, lookupKey, Ne.symm h]
  | cons hd tl ih =>
      obtain ⟨k0, v0⟩ := hd
      by_cases h0 : k0 = k
      · subst h0
        simp [setKey, lookupKey, Ne.symm h]
      · by_cases h1 : k0 = k'
        · simp [setKey, lookupKey, h0, h1, h]
        · simp [setKey, lookupKey, h0, h1, ih]

/-! ## JSON round trip

`json.dumps` followed by `json.loads` maps tuples to lists and otherwise
preserves the structure: `None`, booleans, (arbitrary-precision) integers,
finite floats (repr round trip is exact), strings and string-keyed
dictionaries all survive unchanged. -/

mutual

/-- Structural effect of a `json.dumps` / `json.loads` round trip. -/
def jsonRT : PyVal → PyVal
  | .none => .none
  | .bool b => .bool b
  | .int n => .int n
  | .float q => .float q
  | .str s => .str s
  | .list xs => .list (jsonRTList xs)
  | .tuple xs => .list (jsonRTList xs)
  | .dict xs => .dict (jsonRTDict xs)

/-- JSON round trip, elementwise on a Python list. -/
def jsonRTList : List PyVal → List PyVal
  | [] => []
  | x :: xs => jsonRT x :: jsonRTList xs

/-- JSON round trip, valuewise on a Python dictionary. -/
def jsonRTDict : List (String × PyVal) → List (String × PyVal)
  | [] => []
  | (k, v) :: xs => (k, jsonRT v) :: jsonRTDict xs

end

/-! ## Arrays, dtypes and the array heap

A numpy array is modelled as a shape together with the flat list of its
elements.  Mutation (`np.clip(v, lo, hi, out=v)`) and the aliasing of
`astype(np.float32, copy=False)` need object identity, so array buffers
live on an explicit heap of buffers addressed by index; `astype` with
`copy=False` returns the same buffer exactly when the dtype already
matches, otherwise a fresh converted buffer. -/

/-- Numpy dtype of an array, as far as the embedded code inspects it. -/
inductive NpDtype where
  | float32 : NpDtype
  | float64 : NpDtype
  | int16 : NpDtype
deriving DecidableEq

/-- A heap of array buffers; a reference is an index into `bufs`. -/
structure Heap where
  bufs : List (List ℚ)

/-- Read the buffer a reference points to (empty for a dangling reference). -/
def Heap.read (h : Heap) (r : Nat) : List ℚ := h.bufs.getD r []

/-- Overwrite the buffer a reference points to. -/
def Heap.write (h : Heap) (r : Nat) (v : List ℚ) : Heap := ⟨h.bufs.set r v⟩

/-- Allocate a fresh buffer, returning its reference. -/
def Heap.alloc (h : Heap) (v : List ℚ) : Nat × Heap := (h.bufs.length, ⟨h.bufs ++ [v]⟩)

/-- `volume.astype(np.float32, copy=False)`: the same buffer when the dtype
is already float32, otherwise a freshly allocated converted copy. -/
def astypeF32 (h : Heap) (r : Nat) (dt : NpDtype) : Nat × Heap :=
  if dt = NpDtype.float32 then (r, h) else h.alloc ((h.read r).map f32)

/-- `np.clip(x, lo, hi)` on one element: `min(max(x, lo), hi)`. -/
def clipQ (lo hi : ℤ) (x : ℚ) : ℚ := min (max x (intQ lo)) (intQ hi)

/-- Embedding of `clamp_hu` (normalize_resample.py, lines 57-77):
`v = volume.astype(np.float32, copy=False); return np.clip(v, hu_min, hu_max, out=v)`.
Returns the reference of the returned array and the heap after the
in-place clip. -/
def clamp_hu (h : Heap) (r : Nat) (dt : NpDtype) (huMin huMax : ℤ) : Nat × Heap :=
  let vh := astypeF32 h r dt
  (vh.1, vh.2.write vh.1 ((vh.2.read vh.1).map (clipQ huMin huMax)))

/-! ## Spacing and zoom factors -/

/-- A voxel spacing triple (sz, sy, sx) in millimetres. -/
structure Spacing3 where
  sz : ℚ
  sy : ℚ
  sx : ℚ
deriving DecidableEq

/-- Embedding of `compute_zoom_factors` (normalize_resample.py, lines
109-135): raise `ValueError` when a target component is not positive,
otherwise return the componentwise float quotient
`(sz / tz, sy / ty, sx / tx)`. -/
def compute_zoom_factors (current target : Spacing3) : Except String Spacing3 :=
  if target.sz ≤ 0 ∨ target.sy ≤ 0 ∨ target.sx ≤ 0 then
    Except.error "Target spacing must be positive"
  else
    Except.ok ⟨f64div current.sz target.sz, f64div current.sy target.sy,
      f64div current.sx target.sx⟩

/-- Embedding of `resample_to_spacing` (normalize_resample.py, lines
138-169), parametric in the scipy `zoom` routine: compute the zoom
factors (propagating their validation error), convert to float32, apply
`zoomImpl` and convert the result to float32. -/
def resample_to_spacing
    (zoomImpl : List Nat → List ℚ → Spacing3 → ℤ → List Nat × List ℚ)
    (shape : List Nat) (data : List ℚ) (current target : Spacing3) (order : ℤ) :
    Except String (List Nat × List ℚ) :=
  match compute_zoom_factors current target with
  | Except.error e => Except.error e
  | Except.ok zf =>
      let res := zoomImpl shape (data.map f32) zf order
      Except.ok (res.1, res.2.map f32)

/-! ## Metadata stamping and the full pipeline -/

/-- Metadata dictionaries: ordered association lists of Python values. -/
def Meta : Type := List (String × PyVal)

/-- Parameters of `normalize_and_resample` other than volume, spacing and
metadata (defaults from the Python signature). -/
structure NRParams where
  target : Spacing3 := ⟨1, 1, 1⟩
  huMin : ℤ := -1000
  huMax : ℤ := 400
  applyDenoising : Bool := false
  denoiseSigma : ℚ := mkRat 3 4
  interpOrder : ℤ := 1

/-- The tuple `tuple(float(s) for s in target_spacing)` as a Python value. -/
def spacingTuple (t : Spacing3) : PyVal :=
  PyVal.tuple [PyVal.float t.sz, PyVal.float t.sy, PyVal.float t.sx]

/-- The record assigned to `preprocessing["normalize_resample"]`
(normalize_resample.py, lines 268-274). -/
def nrRecord (p : NRParams) : PyVal :=
  PyVal.dict
    [("hu_window", PyVal.tuple [PyVal.float (intQ p.huMin), PyVal.float (intQ p.huMax)]),
     ("apply_denoising", PyVal.bool p.applyDenoising),
     ("denoise_sigma", PyVal.float p.denoiseSigma),
     ("target_spacing_mm", spacingTuple p.target),
     ("interpolation_order", PyVal.int p.interpOrder)]

/-- `meta.get("preprocessing", {})` followed by item assignment: the value
must be a dictionary (or absent); Python raises a `TypeError` on the
subsequent item assignment otherwise. -/
def getPreprocessing (m : Meta) : Except String (List (String × PyVal)) :=
  match lookupKey m "preprocessing" with
  | Option.some (PyVal.dict d) => Except.ok d
  | Option.some _ => Except.error "TypeError: item assignment on a non-dict preprocessing entry"
  | Option.none => Except.ok []

/-- Embedding of the metadata update of `normalize_and_resample`
(normalize_resample.py, lines 263-275): shallow-copy the mapping, set
`spacing_mm`, and set `normalize_resample` inside the (possibly shared)
`preprocessing` sub-mapping. -/
def stampMetadata (m : Meta) (p : NRParams) : Except String Meta :=
  let m1 := setKey m "spacing_mm" (spacingTuple p.target)
  match getPreprocessing m1 with
  | Except.error e => Except.error e
  | Except.ok d =>
      Except.ok (setKey m1 "preprocessing" (PyVal.dict (setKey d "normalize_resample" (nrRecord p))))

/-- Container for a preprocessed CT volume (the `CTVolume` dataclass). -/
structure CTVol where
  shape : List Nat
  data : List ℚ
  spacing : Spacing3
  metadata : Meta

/-- Embedding of `normalize_and_resample` (normalize_resample.py, lines
205-281) acting on an array stored on the heap: HU clamp (in place for a
float32 input), optional denoising, resampling, metadata stamping.  The
scipy collaborators `zoomImpl` (spline zoom) and `denoiseImpl` (Gaussian
filter) are parameters; both return fresh arrays in the Python code, so
only the clamp touches the heap (allocations unreachable from the caller
are not recorded). -/
def normalize_and_resample_heap
    (zoomImpl : List Nat → List ℚ → Spacing3 → ℤ → List Nat × List ℚ)
    (denoiseImpl : ℚ → List Nat → List ℚ → List ℚ)
    (h : Heap) (r : Nat) (dt : NpDtype) (shape : List Nat)
    (spacing : Spacing3) (m : Meta) (p : NRParams) :
    Except String CTVol × Heap :=
  let ch := clamp_hu h r dt p.huMin p.huMax
  let h1 := ch.2
  let d1 := h1.read ch.1
  let d2 := if p.applyDenoising then (denoiseImpl p.denoiseSigma shape d1).map f32 else d1
  match resample_to_spacing zoomImpl shape d2 spacing p.target p.interpOrder with
  | Except.error e => (Except.error e, h1)
  | Except.ok res =>
      match stampMetadata m p with
      | Except.error e => (Except.error e, h1)
      | Except.ok meta =>
          (Except.ok ⟨res.1, res.2.map f32, p.target, meta⟩, h1)

/-- `normalize_and_resample` on a fresh single-buffer heap (the pure
result, when array identity does not matter). -/
def normalize_and_resample
    (zoomImpl : List Nat → List ℚ → Spacing3 → ℤ → List Nat × List ℚ)
    (denoiseImpl : ℚ → List Nat → List ℚ → List ℚ)
    (data : List ℚ) (dt : NpDtype) (shape : List Nat)
    (spacing : Spacing3) (m : Meta) (p : NRParams) : Except String CTVol :=
  (normalize_and_resample_heap zoomImpl denoiseImpl ⟨[data]⟩ 0 dt shape spacing m p).1

/-- Frame effect of `normalize_and_resample` on the metadata object the
caller passed in, derived from lines 264-275 of normalize_resample.py:
`dict(metadata)` is a shallow copy, so top-level assignments leave the
caller's mapping untouched, but `meta.get("preprocessing", {})` returns
the caller's own nested dictionary when one is present, and the item
assignment `preprocessing_info["normalize_resample"] = ...` mutates it in
place.  When the `preprocessing` value is not a dictionary the item
assignment raises before mutating anything. -/
def normalize_and_resample_callerMetadataAfter (m : Meta) (p : NRParams) : Meta :=
  match lookupKey m "preprocessing" with
  | Option.some (PyVal.dict d) =>
      setKey m "preprocessing" (PyVal.dict (setKey d "normalize_resample" (nrRecord p)))
  | _ => m

/-! ## Cache layer -/

/-- Embedding of `_build_cache_key` (run.py, lines 217-220). -/
def build_cache_key (datasetName seriesUid : String) : String :=
  datasetName ++ "__" ++ seriesUid

/-- The volume cache directory chosen by `_build_paths_for_series`
(run.py, lines 244-248): `output_root / dataset_name / "volumes"`. -/
def volumes_cache_dir (outputRoot datasetName : String) : String :=
  outputRoot ++ "/" ++ datasetName ++ "/volumes"

/-- `cache_key.replace("/", "_")` (a one-character pattern, hence a
characterwise substitution). -/
def sanitizeKey (k : String) : String :=
  String.mk (k.data.map (fun c => if c = '/' then '_' else c))

/-- Embedding of `_cache_path_for_key` (normalize_resample.py, lines
289-297): `cache_dir / f"{safe_key}_normalized_resampled.npz"`. -/
def cache_path_for_key (cacheDir cacheKey : String) : String :=
  cacheDir ++ "/" ++ sanitizeKey cacheKey ++ "_normalized_resampled.npz"

/-- The on-disk representation written by `save_cached_volume`: float32
data, float32 spacing and a JSON string of the metadata. -/
structure StoredVol where
  shape : List Nat
  data : List ℚ
  spacing : Spacing3
  metaJson : Meta

/-- Embedding of `save_cached_volume` (normalize_resample.py, lines
300-318): data as float32, spacing as a float32 array, metadata as its
JSON serialization (whose structural effect is `jsonRTDict`). -/
def save_cached_volume (ct : CTVol) : StoredVol :=
  ⟨ct.shape, ct.data.map f32,
   ⟨f32 ct.spacing.sz, f32 ct.spacing.sy, f32 ct.spacing.sx⟩,
   jsonRTDict ct.metadata⟩

/-- Embedding of `load_cached_volume` (normalize_resample.py, lines
321-334): the stored arrays are already float32, so `astype(np.float32,
copy=False)` is the identity; spacing components are converted by
`float(x)`, exact on float32 values. -/
def load_cached_volume (s : StoredVol) : CTVol :=
  ⟨s.shape, s.data, s.spacing, s.metaJson⟩

/-- Saving then loading a CTVolume (the cache round trip of the spec). -/
def save_then_load (ct : CTVol) : CTVol := load_cached_volume (save_cached_volume ct)

/-- The raw triple produced by `load_raw_fn`, together with the dtype of
its volume array. -/
structure RawInput where
  shape : List Nat
  data : List ℚ
  dtype : NpDtype
  spacing : Spacing3
  metadata : Meta

/-- State threaded through the cached pipeline: the cache directory
contents (path to stored archive) and the number of times `load_raw_fn`
has been invoked. -/
structure CacheState where
  files : List (String × StoredVol)
  loads : Nat

/-- The miss / forced path of `normalize_and_resample_with_cache`: invoke
`load_raw_fn` (counted), normalize, and persist on success. -/
def nrwcRecompute
    (zoomImpl : List Nat → List ℚ → Spacing3 → ℤ → List Nat × List ℚ)
    (denoiseImpl : ℚ → List Nat → List ℚ → List ℚ)
    (raw : RawInput) (p : NRParams) (path : String) (st : CacheState) :
    Except String (CTVol × String) × CacheState :=
  match normalize_and_resample zoomImpl denoiseImpl raw.data raw.dtype raw.shape
      raw.spacing raw.metadata p with
  | Except.error e => (Except.error e, ⟨st.files, st.loads + 1⟩)
  | Except.ok ct =>
      (Except.ok (ct, path), ⟨setKey st.files path (save_cached_volume ct), st.loads + 1⟩)

/-- Embedding of `normalize_and_resample_with_cache` (normalize_resample.py,
lines 337-381): when the cache file exists and recomputation is not
forced, load and return it without invoking `load_raw_fn`; otherwise
invoke the loader, normalize and persist. -/
def normalize_and_resample_with_cache
    (zoomImpl : List Nat → List ℚ → Spacing3 → ℤ → List Nat × List ℚ)
    (denoiseImpl : ℚ → List Nat → List ℚ → List ℚ)
    (cacheKey : String) (raw : RawInput) (cacheDir : String)
    (forceRecompute : Bool) (p : NRParams) (st : CacheState) :
    Except String (CTVol × String) × CacheState :=
  let path := cache_path_for_key cacheDir cacheKey
  match lookupKey st.files path with
  | Option.some stored =>
      if forceRecompute then nrwcRecompute zoomImpl denoiseImpl raw p path st
      else (Except.ok (load_cached_volume stored, path), st)
  | Option.none => nrwcRecompute zoomImpl denoiseImpl raw p path st

instance {ε α : Type} [DecidableEq ε] [DecidableEq α] : DecidableEq (Except ε α) :=
  fun a b =>
    match a, b with
    | Except.error x, Except.error y =>
        if h : x = y then Decidable.isTrue (by rw [h])
        else Decidable.isFalse (by intro hh; cases hh; exact h rfl)
    | Except.ok x, Except.ok y =>
        if h : x = y then Decidable.isTrue (by rw [h])
        else Decidable.isFalse (by intro hh; cases hh; exact h rfl)
    | Except.error _, Except.ok _ => Decidable.isFalse (by intro hh; cases hh)
    | Except.ok _, Except.error _ => Decidable.isFalse (by intro hh; cases hh)

/-! ## Lung segmentation

`segment_lung` (segment_lung.py, lines 31-107).  The scipy collaborators
are parameters of the embedding: `labelImpl` stands for `ndimage.label`
(given the shape and the flattened thresholded mask, it returns the
flattened label array and the number of features), `closingImpl` for
`ndimage.binary_closing` and `fillImpl` for the slice-wise
`binary_fill_holes` loop.  Everything between those calls is embedded
from the source. -/

/-- Configuration dataclass `LungSegmentationConfig` (segment_lung.py,
lines 17-28), with its default values.  The integer fields are Python
ints and may be negative. -/
structure LungSegmentationConfig where
  huThreshold : ℚ := intQ (-320)
  minComponentSize : ℤ := 10000
  numComponentsToKeep : ℤ := 2
  closingIterations : ℤ := 2
  fillHoles : Bool := true

/-- Python `repr` of a shape tuple: `(2, 3, 4)`, `(4,)`, `()`. -/
def pyShapeRepr : List Nat → String
  | [] => "()"
  | [n] => "(" ++ toString n ++ ",)"
  | ns => "(" ++ String.intercalate ", " (ns.map toString) ++ ")"

/-- `np.bincount` on a list of labels: occurrence counts for every value
from 0 up to the maximum (empty for an empty input). -/
def bincount (l : List Nat) : List Nat :=
  if l.isEmpty then []
  else (List.range (l.foldr max 0 + 1)).map (fun i => l.count i)

/-- `volume_hu < hu_threshold`, flattened (segment_lung.py, line 62). -/
def threshOf (cfg : LungSegmentationConfig) (data : List ℚ) : List Bool :=
  data.map (fun x => decide (x < cfg.huThreshold))

/-- The small-component filter (segment_lung.py, lines 73-82): compute
`bincount`, zero the background count, and when `min_component_size > 0`
relabel voxels of too-small components to background and zero their
counts.  Returns the filtered label array and the filtered counts. -/
def filterSmall (cfg : LungSegmentationConfig) (labeled : List Nat) :
    List Nat × List Nat :=
  let sizes := (bincount labeled).set 0 0
  if 0 < cfg.minComponentSize then
    (labeled.map (fun v => if ((sizes.getD v 0 : ℤ) < cfg.minComponentSize) then 0 else v),
     sizes.map (fun (s : Nat) => if ((s : ℤ) < cfg.minComponentSize) then 0 else s))
  else (labeled, sizes)

/-- Stable ascending argsort of a list of counts (indices ordered by
value, equal values by index).  `np.argsort` leaves the order of equal
values unspecified; the theorems below only inspect its output where
that order is forced. -/
def argsortAsc (l : List Nat) : List Nat :=
  (List.range l.length).foldr
    (fun i acc => acc.takeWhile (fun j => l.getD j 0 < l.getD i 0)
      ++ i :: acc.dropWhile (fun j => l.getD j 0 < l.getD i 0)) []

/-- The Python slice `a[-n:]` for an int `n` (as in
`np.argsort(component_sizes)[-config.num_components_to_keep :]`). -/
def pySliceLast {α : Type} (n : ℤ) (l : List α) : List α :=
  if 0 < n then l.drop (l.length - n.toNat) else l.drop (-n).toNat

/-- Labels kept by the top-N selection (segment_lung.py, line 88). -/
def keepLabels (cfg : LungSegmentationConfig) (sizes : List Nat) : List Nat :=
  pySliceLast cfg.numComponentsToKeep (argsortAsc sizes)

/-- `np.isin(labeled, keep_labels)` (segment_lung.py, line 89): the mask
of voxels whose (filtered) label was selected, before morphology. -/
def componentMask (cfg : LungSegmentationConfig) (labeled : List Nat) (sizes : List Nat) :
    List Bool :=
  labeled.map (fun v => (keepLabels cfg sizes).contains v)

/-- Embedding of `segment_lung` (segment_lung.py, lines 31-107).  The
result pairs the mask shape with the flattened boolean mask; every early
`return np.zeros_like(thresh, dtype=bool)` keeps the input shape and
skips the morphology steps. -/
def segment_lung
    (labelImpl : List Nat → List Bool → List Nat × Nat)
    (closingImpl : List Nat → ℤ → List Bool → List Bool)
    (fillImpl : List Nat → List Bool → List Bool)
    (shape : List Nat) (data : List ℚ) (cfg : LungSegmentationConfig) :
    Except String (List Nat × List Bool) :=
  if shape.length = 3 then
    let thresh := threshOf cfg data
    if thresh.any id = false then Except.ok (shape, List.replicate data.length false)
    else
      let lab := labelImpl shape thresh
      if lab.2 = 0 then Except.ok (shape, List.replicate data.length false)
      else
        let fs := filterSmall cfg lab.1
        if fs.2.all (fun s => s == 0) then Except.ok (shape, List.replicate data.length false)
        else
          let mask := componentMask cfg fs.1 fs.2
          let mask2 := if 0 < cfg.closingIterations then closingImpl shape cfg.closingIterations mask else mask
          let mask3 := if cfg.fillHoles then fillImpl shape mask2 else mask2
          Except.ok (shape, mask3)
  else Except.error ("Expected 3D volume, got shape " ++ pyShapeRepr shape)

/-! ## Concrete instances used by witnesses and counterexamples -/

/-- A zoom collaborator that returns its input unchanged. -/
def zoomId : List Nat → List ℚ → Spacing3 → ℤ → List Nat × List ℚ := fun sh d _ _ => (sh, d)

/-- A denoising collaborator that returns its input unchanged. -/
def denoiseId : ℚ → List Nat → List ℚ → List ℚ := fun _ _ d => d

/-- A closing collaborator that returns its input unchanged. -/
def trivClose : List Nat → ℤ → List Bool → List Bool := fun _ _ m => m

/-- A hole-filling collaborator that returns its input unchanged. -/
def trivFill : List Nat → List Bool → List Bool := fun _ m => m

/-- The `ndimage.label` result for the thresholded mask
`[true, true, false, false]` of a (1, 1, 4) volume: two adjacent
below-threshold voxels form one connected component. -/
def labelSingle : List Nat → List Bool → List Nat × Nat := fun _ _ => ([1, 1, 0, 0], 1)

/-- Segmentation configuration keeping two components, with morphology
disabled and a tiny minimum component size. -/
def cfgKeep2 : LungSegmentationConfig :=
  ⟨intQ (-320), 1, 2, 0, false⟩

/-- A (1, 1, 4) HU volume: two lung-like voxels at -800 HU next to two
soft-tissue voxels at 0 HU. -/
def lungVolEx : List ℚ := [intQ (-800), intQ (-800), intQ 0, intQ 0]

/-- A CTVolume whose spacing component 0.8 (the Python float, i.e. the
binary64 rounding of 4/5) is not representable in float32. -/
def ctBad : CTVol := ⟨[1], [intQ 0], ⟨f64 (mkRat 4 5), 1, 1⟩, []⟩

/-- A CTVolume with float32 data, float32-representable spacing and a
small metadata dictionary. -/
def ctGood : CTVol := ⟨[1], [intQ 0], ⟨1, 1, 1⟩, [("key", PyVal.int 3)]⟩

/-- Metadata that already carries a `spacing_mm` entry. -/
def mSpacing : Meta := [("spacing_mm", PyVal.int 42)]

/-- Metadata that already carries an (empty) `preprocessing` sub-mapping. -/
def mPrep : Meta := [("preprocessing", PyVal.dict [])]

/-- A raw input volume for the cached pipeline. -/
def rawW : RawInput := ⟨[1, 1, 1], [intQ 0], NpDtype.float32, ⟨1, 1, 1⟩, []⟩

/-- An empty cache directory, loader not yet invoked. -/
def stEmpty : CacheState := ⟨[], 0⟩

/-- A stored archive used to populate a cache hit. -/
def storedW : StoredVol := ⟨[1], [intQ 7], ⟨1, 1, 1⟩, []⟩

/-- A cache state whose directory already holds the file for key "k" in
directory "d". -/
def stHit : CacheState := ⟨[(cache_path_for_key "d" "k", storedW)], 5⟩

/-- A heap holding one three-voxel HU buffer. -/
def heapW : Heap := ⟨[[intQ (-2000), intQ 100, intQ 500]]⟩

/-- A (1, 1, 4) volume with every voxel above the HU threshold. -/
def dataHigh : List ℚ := [intQ 100, intQ 100, intQ 100, intQ 100]

/-! ## Helper lemmas -/

theorem getD_set_self {α : Type} (l : List α) (i : Nat) (a d : α) (h : i < l.length) :
    (l.set i a).getD i d = a := by
  induction l generalizing i with
  | nil => cases h
  | cons x t ih =>
      cases i with
      | zero => rfl
      | succ n => exact ih n (Nat.lt_of_succ_lt_succ h)

theorem getD_set_ne {α : Type} (l : List α) (i j : Nat) (a d : α) (h : i ≠ j) :
    (l.set i a).getD j d = l.getD j d := by
  induction l generalizing i j with
  | nil => rfl
  | cons x t ih =>
      cases i with
      | zero =>
          cases j with
          | zero => exact absurd rfl h
          | succ m => rfl
      | succ n =>
          cases j with
          | zero => rfl
          | succ m => exact ih n m (fun hh => h (by rw [hh]))

theorem getD_append_left {α : Type} (l l' : List α) (i : Nat) (d : α) (h : i < l.length) :
    (l ++ l').getD i d = l.getD i d := by
  induction l generalizing i with
  | nil => cases h
  | cons x t ih =>
      cases i with
      | zero => rfl
      | succ n => exact ih n (Nat.lt_of_succ_lt_succ h)

theorem normalize_heap_effect
    (zoomImpl : List Nat → List ℚ → Spacing3 → ℤ → List Nat × List ℚ)
    (denoiseImpl : ℚ → List Nat → List ℚ → List ℚ)
    (h : Heap) (r : Nat) (dt : NpDtype) (shape : List Nat)
    (spacing : Spacing3) (m : Meta) (p : NRParams) :
    (normalize_and_resample_heap zoomImpl denoiseImpl h r dt shape spacing m p).2
      = (clamp_hu h r dt p.huMin p.huMax).2 := by
  unfold normalize_and_resample_heap
  dsimp only
  split
  · rfl
  · split
    · rfl
    · rfl

theorem stampMetadata_none (m : Meta) (p : NRParams)
    (hp : lookupKey m "preprocessing" = Option.none) :
    stampMetadata m p
      = Except.ok (setKey (setKey m "spacing_mm" (spacingTuple p.target)) "preprocessing"
          (PyVal.dict [("normalize_resample", nrRecord p)])) := by
  unfold stampMetadata getPreprocessing
  dsimp only
  rw [lookupKey_setKey_ne m "spacing_mm" "preprocessing" _ (by decide), hp]
  rfl

theorem stampMetadata_dict (m : Meta) (p : NRParams) (d : List (String × PyVal))
    (hp : lookupKey m "preprocessing" = Option.some (PyVal.dict d)) :
    stampMetadata m p
      = Except.ok (setKey (setKey m "spacing_mm" (spacingTuple p.target)) "preprocessing"
          (PyVal.dict (setKey d "normalize_resample" (nrRecord p)))) := by
  unfold stampMetadata getPreprocessing
  dsimp only
  rw [lookupKey_setKey_ne m "spacing_mm" "preprocessing" _ (by decide), hp]

theorem map_nonSlash_id (l : List Char) (h : ∀ c ∈ l, c ≠ '/') :
    l.map (fun c => if c = '/' then '_' else c) = l := by
  induction l with
  | nil => rfl
  | cons a t ih =>
      simp only [List.map_cons, if_neg (h a (List.mem_cons_self a t))]
      rw [ih (fun c hc => h c (List.mem_cons_of_mem a hc))]

theorem sanitizeKey_id (s : String) (h : ∀ c ∈ s.data, c ≠ '/') : sanitizeKey s = s := by
  unfold sanitizeKey
  cases s with
  | mk l => exact congrArg String.mk (map_nonSlash_id l h)

theorem map_f32_fixed (l : List ℚ) (h : ∀ x ∈ l, f32 x = x) : l.map f32 = l := by
  induction l with
  | nil => rfl
  | cons a t ih =>
      simp only [List.map_cons, h a (List.mem_cons_self a t)]
      rw [ih (fun x hx => h x (List.mem_cons_of_mem a hx))]

theorem compute_zoom_factors_pos (c t : Spacing3)
    (hz : 0 < t.sz) (hy : 0 < t.sy) (hx : 0 < t.sx) :
    compute_zoom_factors c t
      = Except.ok ⟨f64div c.sz t.sz, f64div c.sy t.sy, f64div c.sx t.sx⟩ := by
  unfold compute_zoom_factors
  rw [if_neg]
  push_neg
  exact ⟨hz, hy, hx⟩

theorem compute_zoom_factors_nonpos (c t : Spacing3)
    (h : t.sz ≤ 0 ∨ t.sy ≤ 0 ∨ t.sx ≤ 0) :
    compute_zoom_factors c t = Except.error "Target spacing must be positive" := by
  unfold compute_zoom_factors
  rw [if_pos h]

theorem resample_to_spacing_pos
    (zoomImpl : List Nat → List ℚ → Spacing3 → ℤ → List Nat × List ℚ)
    (shape : List Nat) (data : List ℚ) (c t : Spacing3) (order : ℤ)
    (hz : 0 < t.sz) (hy : 0 < t.sy) (hx : 0 < t.sx) :
    resample_to_spacing zoomImpl shape data c t order
      = Except.ok
          ((zoomImpl shape (data.map f32) ⟨f64div c.sz t.sz, f64div c.sy t.sy, f64div c.sx t.sx⟩ order).1,
           (zoomImpl shape (data.map f32) ⟨f64div c.sz t.sz, f64div c.sy t.sy, f64div c.sx t.sx⟩ order).2.map f32) := by
  unfold resample_to_spacing
  rw [compute_zoom_factors_pos c t hz hy hx]

theorem nr_ok
    (zoomImpl : List Nat → List ℚ → Spacing3 → ℤ → List Nat × List ℚ)
    (denoiseImpl : ℚ → List Nat → List ℚ → List ℚ)
    (data : List ℚ) (dt : NpDtype) (shape : List Nat)
    (spacing : Spacing3) (m : Meta) (p : NRParams) (meta : Meta)
    (hz : 0 < p.target.sz) (hy : 0 < p.target.sy) (hx : 0 < p.target.sx)
    (hm : stampMetadata m p = Except.ok meta) :
    ∃ ct, normalize_and_resample zoomImpl denoiseImpl data dt shape spacing m p = Except.ok ct
      ∧ ct.metadata = meta ∧ ct.spacing = p.target := by
  unfold normalize_and_resample normalize_and_resample_heap
  dsimp only
  rw [resample_to_spacing_pos _ _ _ _ _ _ hz hy hx, hm]
  exact ⟨_, rfl, rfl, rfl⟩

theorem nrwc_hit
    (zoomImpl : List Nat → List ℚ → Spacing3 → ℤ → List Nat × List ℚ)
    (denoiseImpl : ℚ → List Nat → List ℚ → List ℚ)
    (key : String) (raw : RawInput) (dir : String) (p : NRParams)
    (st : CacheState) (stored : StoredVol)
    (h : lookupKey st.files (cache_path_for_key dir key) = Option.some stored) :
    normalize_and_resample_with_cache zoomImpl denoiseImpl key raw dir false p st
      = (Except.ok (load_cached_volume stored, cache_path_for_key dir key), st) := by
  unfold normalize_and_resample_with_cache
  dsimp only
  rw [h]
  rfl

theorem nrwc_miss
    (zoomImpl : List Nat → List ℚ → Spacing3 → ℤ → List Nat × List ℚ)
    (denoiseImpl : ℚ → List Nat → List ℚ → List ℚ)
    (key : String) (raw : RawInput) (dir : String) (force : Bool) (p : NRParams)
    (st : CacheState)
    (h : lookupKey st.files (cache_path_for_key dir key) = Option.none) :
    normalize_and_resample_with_cache zoomImpl denoiseImpl key raw dir force p st
      = nrwcRecompute zoomImpl denoiseImpl raw p (cache_path_for_key dir key) st := by
  unfold normalize_and_resample_with_cache
  dsimp only
  rw [h]

theorem nrwc_force
    (zoomImpl : List Nat → List ℚ → Spacing3 → ℤ → List Nat × List ℚ)
    (denoiseImpl : ℚ → List Nat → List ℚ → List ℚ)
    (key : String) (raw : RawInput) (dir : String) (p : NRParams) (st : CacheState) :
    normalize_and_resample_with_cache zoomImpl denoiseImpl key raw dir true p st
      = nrwcRecompute zoomImpl denoiseImpl raw p (cache_path_for_key dir key) st := by
  unfold normalize_and_resample_with_cache
  dsimp only
  cases lookupKey st.files (cache_path_for_key dir key) with
  | none => rfl
  | some stored => rfl

theorem recompute_loads
    (zoomImpl : List Nat → List ℚ → Spacing3 → ℤ → List Nat × List ℚ)
    (denoiseImpl : ℚ → List Nat → List ℚ → List ℚ)
    (raw : RawInput) (p : NRParams) (path : String) (st : CacheState) :
    (nrwcRecompute zoomImpl denoiseImpl raw p path st).2.loads = st.loads + 1 := by
  unfold nrwcRecompute
  cases normalize_and_resample zoomImpl denoiseImpl raw.data raw.dtype raw.shape
      raw.spacing raw.metadata p with
  | error e => rfl
  | ok ct => rfl

theorem recompute_ok
    (zoomImpl : List Nat → List ℚ → Spacing3 → ℤ → List Nat × List ℚ)
    (denoiseImpl : ℚ → List Nat → List ℚ → List ℚ)
    (raw : RawInput) (p : NRParams) (path : String) (st : CacheState) (ct : CTVol)
    (hct : normalize_and_resample zoomImpl denoiseImpl raw.data raw.dtype raw.shape
        raw.spacing raw.metadata p = Except.ok ct) :
    nrwcRecompute zoomImpl denoiseImpl raw p path st
      = (Except.ok (ct, path),
         ⟨setKey st.files path (save_cached_volume ct), st.loads + 1⟩) := by
  unfold nrwcRecompute
  rw [hct]

end DistML

namespace DistML

/-! ## Claim theorems -/

/-- C9: `compute_zoom_factors` returns, per axis, the (binary64) quotient
of the current spacing component by the target spacing component; in
particular, for current spacing (2.5, 0.8, 0.8) and target (1.0, 1.0,
1.0) the zoom factors are exactly (2.5, 0.8, 0.8).  (0.8 denotes the
Python float literal, the binary64 rounding of 4/5.) -/
theorem zoom_factors_are_spacing_quotients (c t : Spacing3)
    (hz : 0 < t.sz) (hy : 0 < t.sy) (hx : 0 < t.sx) :
    compute_zoom_factors c t
      = Except.ok ⟨f64div c.sz t.sz, f64div c.sy t.sy, f64div c.sx t.sx⟩ :=
  compute_zoom_factors_pos c t hz hy hx

/-- C9 witness: the concrete scenario of the spec, spacing
(2.5, 0.8, 0.8) mm resampled to (1.0, 1.0, 1.0) mm, yields zoom factors
exactly (2.5, 0.8, 0.8). -/
theorem zoom_factors_are_spacing_quotients_witness :
    compute_zoom_factors ⟨mkRat 5 2, f64 (mkRat 4 5), f64 (mkRat 4 5)⟩ ⟨1, 1, 1⟩
      = Except.ok ⟨mkRat 5 2, f64 (mkRat 4 5), f64 (mkRat 4 5)⟩ := by
  rw [zoom_factors_are_spacing_quotients _ _ (by decide) (by decide) (by decide)]
  decide

/-- C7 counterexample: a current spacing with a zero component is not
rejected — `resample_to_spacing` (driven by `compute_zoom_factors`)
proceeds and simply produces a zero zoom factor, so the claim that the
pipeline fails on any non-positive spacing component is false. -/
theorem nonpositive_current_spacing_not_rejected :
    compute_zoom_factors ⟨0, 1, 1⟩ ⟨1, 1, 1⟩ = Except.ok ⟨0, 1, 1⟩
    ∧ resample_to_spacing zoomId [1, 1, 1] [intQ 7] ⟨0, 1, 1⟩ ⟨1, 1, 1⟩ 1
        = Except.ok ([1, 1, 1], [f32 (intQ 7)]) := by
  constructor
  · decide
  · decide

/-- C7 (amended): only the target spacing is validated; the pipeline
(`compute_zoom_factors`, hence `resample_to_spacing`) fails iff some
target spacing component is non-positive, regardless of the current
spacing, whose non-positive components are not checked and flow into the
zoom factors. -/
theorem spacing_validation_targets_only (c t : Spacing3) :
    (∀ e, compute_zoom_factors c t = Except.error e ↔
        (t.sz ≤ 0 ∨ t.sy ≤ 0 ∨ t.sx ≤ 0) ∧ e = "Target spacing must be positive")
    ∧ ∀ zoomImpl shape data order,
        (resample_to_spacing zoomImpl shape data c t order).isOk
          ↔ (0 < t.sz ∧ 0 < t.sy ∧ 0 < t.sx) := by
  constructor
  · intro e
    constructor
    · intro h
      by_cases hp : t.sz ≤ 0 ∨ t.sy ≤ 0 ∨ t.sx ≤ 0
      · rw [compute_zoom_factors_nonpos c t hp] at h
        injection h with h
        exact ⟨hp, h.symm⟩
      · push_neg at hp
        rw [compute_zoom_factors_pos c t hp.1 hp.2.1 hp.2.2] at h
        cases h
    · rintro ⟨hp, rfl⟩
      exact compute_zoom_factors_nonpos c t hp
  · intro zoomImpl shape data order
    constructor
    · intro h
      by_contra hp
      have hp' : t.sz ≤ 0 ∨ t.sy ≤ 0 ∨ t.sx ≤ 0 := by
        rcases not_and_or.mp hp with h1 | h2
        · exact Or.inl (not_lt.mp h1)
        · rcases not_and_or.mp h2 with h3 | h4
          · exact Or.inr (Or.inl (not_lt.mp h3))
          · exact Or.inr (Or.inr (not_lt.mp h4))
      unfold resample_to_spacing at h
      rw [compute_zoom_factors_nonpos c t hp'] at h
      simp [Except.isOk, Except.toBool] at h
    · rintro ⟨hz, hy, hx⟩
      rw [resample_to_spacing_pos zoomImpl shape data c t order hz hy hx]
      rfl

/-- C7 amended witness: at target spacing (1, 1, 1) and zero current
z-spacing, the resampling step succeeds. -/
theorem spacing_validation_targets_only_witness :
    (resample_to_spacing zoomId [1, 1, 1] [intQ 7] ⟨0, 1, 1⟩ ⟨1, 1, 1⟩ 1).isOk = true :=
  ((spacing_validation_targets_only ⟨0, 1, 1⟩ ⟨1, 1, 1⟩).2 zoomId [1, 1, 1] [intQ 7] 1).mpr
    ⟨by decide, by decide, by decide⟩

/-- C2 counterexample: a CTVolume with spacing component 0.8 (Python
float) does not round-trip through the cache: the spacing is stored as
float32 and comes back as the float32 rounding of 0.8, which differs
from 0.8.  The claim that loading yields a CTVolume whose spacing equals
the original is therefore false. -/
theorem cache_round_trip_spacing_counterexample :
    (save_then_load ctBad).spacing ≠ ctBad.spacing := by
  decide

/-- C2 (amended): the cache round trip preserves float32 data exactly and
preserves metadata up to JSON round-trip structure, but the spacing only
up to float32 rounding: the loaded spacing is the componentwise float32
rounding of the original, so it equals the original iff every component
is float32-representable. -/
theorem cache_round_trip (ct : CTVol) (hdata : ∀ x ∈ ct.data, f32 x = x) :
    (save_then_load ct).shape = ct.shape
    ∧ (save_then_load ct).data = ct.data
    ∧ (save_then_load ct).spacing = ⟨f32 ct.spacing.sz, f32 ct.spacing.sy, f32 ct.spacing.sx⟩
    ∧ (save_then_load ct).metadata = jsonRTDict ct.metadata
    ∧ ((save_then_load ct).spacing = ct.spacing
        ↔ (f32 ct.spacing.sz = ct.spacing.sz ∧ f32 ct.spacing.sy = ct.spacing.sy
            ∧ f32 ct.spacing.sx = ct.spacing.sx)) := by
  refine ⟨rfl, ?_, rfl, rfl, ?_⟩
  · exact map_f32_fixed ct.data hdata
  · show (Spacing3.mk (f32 ct.spacing.sz) (f32 ct.spacing.sy) (f32 ct.spacing.sx) = ct.spacing) ↔ _
    constructor
    · intro h
      exact ⟨congrArg Spacing3.sz h, congrArg Spacing3.sy h, congrArg Spacing3.sx h⟩
    · rintro ⟨h1, h2, h3⟩
      rw [h1, h2, h3]

/-- C2 witness: a CTVolume with float32 data and integer spacing
round-trips; its data, shape and spacing come back unchanged and the
metadata comes back as its JSON round trip. -/
theorem cache_round_trip_witness :
    (save_then_load ctGood).data = ctGood.data
    ∧ (save_then_load ctGood).spacing = ctGood.spacing := by
  have h := cache_round_trip ctGood (by decide)
  exact ⟨h.2.1, h.2.2.2.2.mpr (by decide)⟩

/-- C10: when the input array has dtype float32, `clamp_hu` (and hence
the HU-clamp step of `normalize_and_resample`) clips the caller's buffer
in place: `astype(np.float32, copy=False)` returns the same buffer and
`np.clip(v, lo, hi, out=v)` overwrites it, so after the call the caller's
buffer holds the clamped values (and the returned array is the caller's
buffer itself); for any other dtype the caller's buffer is untouched. -/
theorem clamp_hu_in_place (h : Heap) (r : Nat) (hr : r < h.bufs.length) :
    (∀ lo hi, (clamp_hu h r NpDtype.float32 lo hi).1 = r
      ∧ (clamp_hu h r NpDtype.float32 lo hi).2.read r = (h.read r).map (clipQ lo hi))
    ∧ (∀ lo hi dt, dt ≠ NpDtype.float32 → (clamp_hu h r dt lo hi).2.read r = h.read r)
    ∧ ∀ zoomImpl denoiseImpl shape spacing m p,
        ((normalize_and_resample_heap zoomImpl denoiseImpl h r NpDtype.float32 shape spacing m
            p).2.read r = (h.read r).map (clipQ p.huMin p.huMax))
        ∧ ∀ dt, dt ≠ NpDtype.float32 →
            (normalize_and_resample_heap zoomImpl denoiseImpl h r dt shape spacing m p).2.read r
              = h.read r := by
  have hf32 : ∀ lo hi : ℤ, (clamp_hu h r NpDtype.float32 lo hi).1 = r
      ∧ (clamp_hu h r NpDtype.float32 lo hi).2.read r = (h.read r).map (clipQ lo hi) := by
    intro lo hi
    constructor
    · rfl
    · show Heap.read ⟨h.bufs.set r ((h.read r).map (clipQ lo hi))⟩ r = _
      exact getD_set_self h.bufs r _ [] hr
  have hother : ∀ (lo hi : ℤ) dt, dt ≠ NpDtype.float32 →
      (clamp_hu h r dt lo hi).2.read r = h.read r := by
    intro lo hi dt hdt
    simp only [clamp_hu, astypeF32, if_neg hdt, Heap.alloc, Heap.write, Heap.read]
    rw [getD_set_ne _ _ _ _ _ (Nat.ne_of_gt hr)]
    exact getD_append_left h.bufs _ r [] hr
  refine ⟨hf32, hother, ?_⟩
  intro zoomImpl denoiseImpl shape spacing m p
  constructor
  · rw [normalize_heap_effect]
    exact (hf32 p.huMin p.huMax).2
  · intro dt hdt
    rw [normalize_heap_effect]
    exact hother p.huMin p.huMax dt hdt

/-- C10 witness: on a concrete float32 HU buffer, the caller's buffer is
overwritten with the clamped values, and an int16 input leaves it
untouched. -/
theorem clamp_hu_in_place_witness :
    (clamp_hu heapW 0 NpDtype.float32 (-1000) 400).2.read 0
      = [intQ (-1000), intQ 100, intQ 400]
    ∧ (clamp_hu heapW 0 NpDtype.int16 (-1000) 400).2.read 0
      = [intQ (-2000), intQ 100, intQ 500] := by
  have h := clamp_hu_in_place heapW 0 (by decide)
  refine ⟨?_, ?_⟩
  · rw [(h.1 (-1000) 400).2]
    decide
  · rw [h.2.1 (-1000) 400 NpDtype.int16 (by decide)]
    decide

/-- C4 counterexample: when the caller-supplied metadata already contains
a `spacing_mm` key, `normalize_and_resample` overwrites it with the
target spacing, so the claim that every pre-existing key keeps its value
unchanged is false. -/
theorem normalize_overwrites_spacing_mm :
    lookupKey mSpacing "spacing_mm" = Option.some (PyVal.int 42)
    ∧ ∃ ct, normalize_and_resample zoomId denoiseId [intQ 0] NpDtype.float32 [1, 1, 1]
          ⟨1, 1, 1⟩ mSpacing {} = Except.ok ct
        ∧ lookupKey ct.metadata "spacing_mm" = Option.some (spacingTuple ⟨1, 1, 1⟩)
        ∧ spacingTuple ⟨1, 1, 1⟩ ≠ PyVal.int 42 := by
  refine ⟨rfl, ⟨_, rfl, rfl, fun h => PyVal.noConfusion h⟩⟩

/-- C4 (amended): `normalize_and_resample` copies the caller-supplied
metadata and preserves every pre-existing entry except the two keys it
stamps: `spacing_mm` is set (overwriting a pre-existing value) to the
target spacing, and `normalize_resample` is set (overwriting a
pre-existing value) inside the `preprocessing` sub-mapping, whose other
entries are preserved; no key is deleted. -/
theorem normalize_metadata_updates
    (zoomImpl : List Nat → List ℚ → Spacing3 → ℤ → List Nat × List ℚ)
    (denoiseImpl : ℚ → List Nat → List ℚ → List ℚ)
    (data : List ℚ) (dt : NpDtype) (shape : List Nat)
    (spacing : Spacing3) (m : Meta) (p : NRParams)
    (hz : 0 < p.target.sz) (hy : 0 < p.target.sy) (hx : 0 < p.target.sx)
    (hp : lookupKey m "preprocessing" = Option.none
        ∨ ∃ d, lookupKey m "preprocessing" = Option.some (PyVal.dict d)) :
    ∃ ct, normalize_and_resample zoomImpl denoiseImpl data dt shape spacing m p = Except.ok ct
      ∧ (∀ k v, k ≠ "spacing_mm" → k ≠ "preprocessing" → lookupKey m k = Option.some v →
          lookupKey ct.metadata k = Option.some v)
      ∧ lookupKey ct.metadata "spacing_mm" = Option.some (spacingTuple p.target)
      ∧ (lookupKey m "preprocessing" = Option.none →
          lookupKey ct.metadata "preprocessing"
            = Option.some (PyVal.dict [("normalize_resample", nrRecord p)]))
      ∧ ∀ d, lookupKey m "preprocessing" = Option.some (PyVal.dict d) →
          lookupKey ct.metadata "preprocessing"
              = Option.some (PyVal.dict (setKey d "normalize_resample" (nrRecord p)))
            ∧ ∀ k v, k ≠ "normalize_resample" → lookupKey d k = Option.some v →
                lookupKey (setKey d "normalize_resample" (nrRecord p)) k = Option.some v := by
  rcases hp with hnone | ⟨d, hdict⟩
  · obtain ⟨ct, hct, hmeta, -⟩ :=
      nr_ok zoomImpl denoiseImpl data dt shape spacing m p _ hz hy hx
        (stampMetadata_none m p hnone)
    refine ⟨ct, hct, ?_, ?_, ?_, ?_⟩
    · intro k v hk1 hk2 hkv
      rw [hmeta, lookupKey_setKey_ne _ _ _ _ hk2, lookupKey_setKey_ne _ _ _ _ hk1]
      exact hkv
    · rw [hmeta, lookupKey_setKey_ne _ _ _ _ (by decide), lookupKey_setKey_self]
    · intro _
      rw [hmeta, lookupKey_setKey_self]
    · intro d hd
      rw [hnone] at hd
      cases hd
  · obtain ⟨ct, hct, hmeta, -⟩ :=
      nr_ok zoomImpl denoiseImpl data dt shape spacing m p _ hz hy hx
        (stampMetadata_dict m p d hdict)
    refine ⟨ct, hct, ?_, ?_, ?_, ?_⟩
    · intro k v hk1 hk2 hkv
      rw [hmeta, lookupKey_setKey_ne _ _ _ _ hk2, lookupKey_setKey_ne _ _ _ _ hk1]
      exact hkv
    · rw [hmeta, lookupKey_setKey_ne _ _ _ _ (by decide), lookupKey_setKey_self]
    · intro hnone
      rw [hnone] at hdict
      cases hdict
    · intro d' hd'
      rw [hdict] at hd'
      injection hd' with hd'
      injection hd' with hd'
      subst hd'
      refine ⟨?_, ?_⟩
      · rw [hmeta, lookupKey_setKey_self]
      · intro k v hk hkv
        rw [lookupKey_setKey_ne _ _ _ _ hk]
        exact hkv

/-- C4 witness: with metadata that already holds `spacing_mm`, the other
key material survives and the two stamped keys are present. -/
theorem normalize_metadata_updates_witness :
    ∃ ct, normalize_and_resample zoomId denoiseId [intQ 0] NpDtype.float32 [1, 1, 1]
        ⟨1, 1, 1⟩ mSpacing {} = Except.ok ct
      ∧ lookupKey ct.metadata "spacing_mm" = Option.some (spacingTuple ⟨1, 1, 1⟩) := by
  obtain ⟨ct, hct, -, hsp, -, -⟩ :=
    normalize_metadata_updates zoomId denoiseId [intQ 0] NpDtype.float32 [1, 1, 1]
      ⟨1, 1, 1⟩ mSpacing {} (by decide) (by decide) (by decide) (Or.inl rfl)
  exact ⟨ct, hct, hsp⟩

/-- C5 counterexample: `dict(metadata)` is a shallow copy, so when the
caller metadata holds a `preprocessing` sub-mapping, the
`normalize_resample` item assignment mutates the caller's own nested
dictionary in place; after the call the caller metadata is no longer
what it was, so the claim that the caller instance is never mutated is
false. -/
theorem normalize_mutates_nested_preprocessing :
    normalize_and_resample_callerMetadataAfter mPrep {} ≠ mPrep := by
  intro h
  injection h with h1 h2
  injection h1 with h1a h1b
  injection h1b with h1b
  cases h1b

/-- C5 (amended): `normalize_and_resample` never mutates the caller's
top-level metadata mapping (its keys and bindings are unchanged), and
when no `preprocessing` sub-mapping is present nothing the caller holds
is mutated; but when the caller metadata holds a `preprocessing`
dictionary, that nested dictionary is mutated in place: its
`normalize_resample` key is set to the new record while its other
entries are untouched. -/
theorem normalize_caller_metadata_frame (m : Meta) (p : NRParams) :
    (lookupKey m "preprocessing" = Option.none →
      normalize_and_resample_callerMetadataAfter m p = m)
    ∧ (∀ k, k ≠ "preprocessing" →
        lookupKey (normalize_and_resample_callerMetadataAfter m p) k = lookupKey m k)
    ∧ ∀ d, lookupKey m "preprocessing" = Option.some (PyVal.dict d) →
        lookupKey (normalize_and_resample_callerMetadataAfter m p) "preprocessing"
            = Option.some (PyVal.dict (setKey d "normalize_resample" (nrRecord p)))
          ∧ ∀ k v, k ≠ "normalize_resample" → lookupKey d k = Option.some v →
              lookupKey (setKey d "normalize_resample" (nrRecord p)) k = Option.some v := by
  refine ⟨?_, ?_, ?_⟩
  · intro hnone
    unfold normalize_and_resample_callerMetadataAfter
    rw [hnone]
  · intro k hk
    unfold normalize_and_resample_callerMetadataAfter
    cases hm : lookupKey m "preprocessing" with
    | none => rfl
    | some v =>
        cases v with
        | dict d => exact lookupKey_setKey_ne _ _ _ _ hk
        | none => rfl
        | bool b => rfl
        | int n => rfl
        | float q => rfl
        | str s => rfl
        | list l => rfl
        | tuple l => rfl
  · intro d hd
    unfold normalize_and_resample_callerMetadataAfter
    rw [hd]
    exact ⟨lookupKey_setKey_self _ _ _, fun k v hk hkv => by
      rw [lookupKey_setKey_ne _ _ _ _ hk]; exact hkv⟩

/-- C5 witness: on metadata with an empty `preprocessing` sub-mapping,
the caller metadata after the call holds the mutated nested dictionary. -/
theorem normalize_caller_metadata_frame_witness :
    lookupKey (normalize_and_resample_callerMetadataAfter mPrep {}) "preprocessing"
      = Option.some (PyVal.dict [("normalize_resample", nrRecord {})]) := by
  exact ((normalize_caller_metadata_frame mPrep {}).2.2 [] rfl).1

/-- C6 counterexample: for dataset "lidc" and series "s1" the orchestrator
does not store the cached volume at `out/lidc/volumes/lidc__s1.npz`:
`_cache_path_for_key` appends `_normalized_resampled.npz` to the key, not
a bare `.npz`, so the claim about the exact file name is false. -/
theorem cache_path_name_counterexample :
    cache_path_for_key (volumes_cache_dir "out" "lidc") (build_cache_key "lidc" "s1")
      ≠ "out/lidc/volumes/lidc__s1.npz"
    ∧ cache_path_for_key (volumes_cache_dir "out" "lidc") (build_cache_key "lidc" "s1")
      = "out/lidc/volumes/lidc__s1_normalized_resampled.npz" := by
  constructor
  · decide
  · decide

/-- C6 (amended): for every dataset name and series id free of slashes,
the orchestrator stores the cached normalized volume at
`<output_root>/<dataset>/volumes/<dataset>__<series_id>_normalized_resampled.npz`:
the file name is the cache key `<dataset>__<series_id>` followed by the
suffix `_normalized_resampled.npz`. -/
theorem cache_path_layout (out ds uid : String)
    (hds : ∀ c ∈ ds.data, c ≠ '/') (huid : ∀ c ∈ uid.data, c ≠ '/') :
    cache_path_for_key (volumes_cache_dir out ds) (build_cache_key ds uid)
      = out ++ "/" ++ ds ++ "/volumes/" ++ ds ++ "__" ++ uid ++ "_normalized_resampled.npz" := by
  unfold cache_path_for_key volumes_cache_dir build_cache_key
  rw [sanitizeKey_id]
  · apply String.ext
    simp only [String.data_append, List.append_assoc]
    rfl
  · intro c hc
    simp only [String.data_append] at hc
    rcases List.mem_append.mp hc with hc1 | hc2
    · rcases List.mem_append.mp hc1 with hc3 | hc4
      · exact hds c hc3
      · intro hcc
        subst hcc
        exact absurd hc4 (by decide)
    · exact huid c hc2

/-- C6 witness: the concrete layout for dataset "lidc", series "s1" and
output root "out". -/
theorem cache_path_layout_witness :
    cache_path_for_key (volumes_cache_dir "out" "lidc") (build_cache_key "lidc" "s1")
      = "out/lidc/volumes/lidc__s1_normalized_resampled.npz" := by
  rw [cache_path_layout "out" "lidc" "s1" (by decide) (by decide)]
  decide

/-- C3: cache hits suppress recomputation.  When the derived cache file
exists and `force_recompute` is false, the cached pipeline returns the
loaded file and leaves the state untouched (in particular `load_raw_fn`
is not invoked); starting from a state with no file for the key, two
unforced calls invoke the loader exactly once, while forcing
recomputation on the second call invokes it twice. -/
theorem with_cache_semantics
    (zoomImpl : List Nat → List ℚ → Spacing3 → ℤ → List Nat × List ℚ)
    (denoiseImpl : ℚ → List Nat → List ℚ → List ℚ)
    (key : String) (raw : RawInput) (dir : String) (p : NRParams) :
    (∀ st stored, lookupKey st.files (cache_path_for_key dir key) = Option.some stored →
        normalize_and_resample_with_cache zoomImpl denoiseImpl key raw dir false p st
          = (Except.ok (load_cached_volume stored, cache_path_for_key dir key), st))
    ∧ (∀ st, lookupKey st.files (cache_path_for_key dir key) = Option.none →
        0 < p.target.sz → 0 < p.target.sy → 0 < p.target.sx →
        (lookupKey raw.metadata "preprocessing" = Option.none
          ∨ ∃ d, lookupKey raw.metadata "preprocessing" = Option.some (PyVal.dict d)) →
        (normalize_and_resample_with_cache zoomImpl denoiseImpl key raw dir false p
            (normalize_and_resample_with_cache zoomImpl denoiseImpl key raw dir false p st).2).2.loads
          = st.loads + 1)
    ∧ ∀ st, lookupKey st.files (cache_path_for_key dir key) = Option.none →
        (normalize_and_resample_with_cache zoomImpl denoiseImpl key raw dir true p
            (normalize_and_resample_with_cache zoomImpl denoiseImpl key raw dir false p st).2).2.loads
          = st.loads + 2 := by
  refine ⟨?_, ?_, ?_⟩
  · intro st stored h
    exact nrwc_hit zoomImpl denoiseImpl key raw dir p st stored h
  · intro st h hz hy hx hp
    have hstamp : ∃ meta, stampMetadata raw.metadata p = Except.ok meta := by
      rcases hp with hnone | ⟨d, hdict⟩
      · exact ⟨_, stampMetadata_none raw.metadata p hnone⟩
      · exact ⟨_, stampMetadata_dict raw.metadata p d hdict⟩
    obtain ⟨meta, hmeta⟩ := hstamp
    obtain ⟨ct, hct, -, -⟩ :=
      nr_ok zoomImpl denoiseImpl raw.data raw.dtype raw.shape raw.spacing raw.metadata p
        meta hz hy hx hmeta
    rw [nrwc_miss zoomImpl denoiseImpl key raw dir false p st h,
        recompute_ok zoomImpl denoiseImpl raw p _ st ct hct]
    rw [nrwc_hit zoomImpl denoiseImpl key raw dir p _ (save_cached_volume ct)
        (lookupKey_setKey_self st.files _ _)]
  · intro st h
    rw [nrwc_miss zoomImpl denoiseImpl key raw dir false p st h]
    rw [nrwc_force zoomImpl denoiseImpl key raw dir p _]
    rw [recompute_loads, recompute_loads]

/-- C3 witness: a concrete hit returns the stored archive with the state
untouched; from an empty cache two unforced calls load raw data once,
and an unforced call followed by a forced one loads it twice. -/
theorem with_cache_semantics_witness :
    normalize_and_resample_with_cache zoomId denoiseId "k" rawW "d" false {} stHit
      = (Except.ok (load_cached_volume storedW, cache_path_for_key "d" "k"), stHit)
    ∧ (normalize_and_resample_with_cache zoomId denoiseId "k" rawW "d" false {}
        (normalize_and_resample_with_cache zoomId denoiseId "k" rawW "d" false {} stEmpty).2).2.loads
      = 1
    ∧ (normalize_and_resample_with_cache zoomId denoiseId "k" rawW "d" true {}
        (normalize_and_resample_with_cache zoomId denoiseId "k" rawW "d" false {} stEmpty).2).2.loads
      = 2 := by
  have h := with_cache_semantics zoomId denoiseId "k" rawW "d" {}
  exact ⟨h.1 stHit storedW rfl, h.2.1 stEmpty rfl (by decide) (by decide) (by decide)
    (Or.inl rfl), h.2.2 stEmpty rfl⟩

/-- C8: `segment_lung` fails (with the offending shape in the message)
iff its input is not exactly 3-dimensional; on every 3-dimensional input
and configuration it returns a mask whose shape is the input shape, and
in each no-signal case — no voxel below the HU threshold, zero connected
components, or every component removed by the size filter — the returned
mask is all-false with one entry per input voxel. -/
theorem segment_lung_validation
    (labelImpl : List Nat → List Bool → List Nat × Nat)
    (closingImpl : List Nat → ℤ → List Bool → List Bool)
    (fillImpl : List Nat → List Bool → List Bool)
    (shape : List Nat) (data : List ℚ) (cfg : LungSegmentationConfig) :
    (shape.length ≠ 3 →
      segment_lung labelImpl closingImpl fillImpl shape data cfg
        = Except.error ("Expected 3D volume, got shape " ++ pyShapeRepr shape))
    ∧ (shape.length = 3 →
        ∃ msk, segment_lung labelImpl closingImpl fillImpl shape data cfg = Except.ok msk
          ∧ msk.1 = shape)
    ∧ (shape.length = 3 → (∀ x ∈ data, ¬ x < cfg.huThreshold) →
        segment_lung labelImpl closingImpl fillImpl shape data cfg
          = Except.ok (shape, List.replicate data.length false))
    ∧ (shape.length = 3 → (labelImpl shape (threshOf cfg data)).2 = 0 →
        segment_lung labelImpl closingImpl fillImpl shape data cfg
          = Except.ok (shape, List.replicate data.length false))
    ∧ (shape.length = 3 →
        (filterSmall cfg (labelImpl shape (threshOf cfg data)).1).2.all (fun s => s == 0) = true →
        segment_lung labelImpl closingImpl fillImpl shape data cfg
          = Except.ok (shape, List.replicate data.length false)) := by
  refine ⟨?_, ?_, ?_, ?_, ?_⟩
  · intro h3
    unfold segment_lung
    rw [if_neg h3]
  · intro h3
    unfold segment_lung
    rw [if_pos h3]
    dsimp only
    split
    · exact ⟨_, rfl, rfl⟩
    · split
      · exact ⟨_, rfl, rfl⟩
      · split
        · exact ⟨_, rfl, rfl⟩
        · exact ⟨_, rfl, rfl⟩
  · intro h3 hnb
    have hany : (threshOf cfg data).any id = false := by
      unfold threshOf
      rw [List.any_eq_false]
      intro b hb
      obtain ⟨x, hxmem, rfl⟩ := List.mem_map.mp hb
      simpa using hnb x hxmem
    unfold segment_lung
    rw [if_pos h3]
    dsimp only
    rw [if_pos hany]
  · intro h3 hnf
    unfold segment_lung
    rw [if_pos h3]
    dsimp only
    split
    · rfl
    · simp [hnf]
  · intro h3 hall
    unfold segment_lung
    rw [if_pos h3]
    dsimp only
    split
    · rfl
    · split
      · rfl
      · simp [hall]

/-- C8 witness: a 2-dimensional input is rejected with its shape in the
message, and a 3-dimensional volume with no voxel below the threshold
yields the all-false mask of input length. -/
theorem segment_lung_validation_witness :
    segment_lung labelSingle trivClose trivFill [2, 2] lungVolEx cfgKeep2
      = Except.error ("Expected 3D volume, got shape " ++ pyShapeRepr [2, 2])
    ∧ segment_lung labelSingle trivClose trivFill [1, 1, 4] dataHigh cfgKeep2
      = Except.ok ([1, 1, 4], List.replicate dataHigh.length false) := by
  refine ⟨?_, ?_⟩
  · exact (segment_lung_validation labelSingle trivClose trivFill [2, 2] lungVolEx cfgKeep2).1
      (by decide)
  · exact (segment_lung_validation labelSingle trivClose trivFill [1, 1, 4] dataHigh
      cfgKeep2).2.2.1 rfl (by decide)

/-- C1 (code bug): with a single connected component and the default
request to keep two components, `np.argsort(component_sizes)[-2:]` ranges
over all bincount indices — background included — so the selected label
set contains the background label 0 and the returned mask covers the
whole volume, background voxels included.  Here voxel 2 has label 0
(soft tissue at 0 HU, above the threshold) yet lands in the mask. -/
theorem segment_lung_background_in_mask :
    segment_lung labelSingle trivClose trivFill [1, 1, 4] lungVolEx cfgKeep2
      = Except.ok ([1, 1, 4], [true, true, true, true])
    ∧ (labelSingle [1, 1, 4] (threshOf cfgKeep2 lungVolEx)).1.getD 2 0 = 0
    ∧ (keepLabels cfgKeep2
        (filterSmall cfgKeep2 (labelSingle [1, 1, 4] (threshOf cfgKeep2 lungVolEx)).1).2).contains 0
      = true := by
  refine ⟨by decide, by decide, by decide⟩

end DistML
